import Mathlib

/-
Verification of the OneScriber Streamlit application (src/main.py): a shallow
embedding of its session data model, prompt-template substitution, the
transcribe-button handler (lines 166-214) and the chat turn (lines 226-239),
together with theorems settling the specified behavioural claims.

External collaborators (yt-dlp download, the Whisper model, the Gemini LLM and
the filesystem) are modelled as oracles supplied through a `World` record: each
oracle value fixes the outcome of one external call of the run under scrutiny.
-/

set_option autoImplicit false

namespace OneScriber

/-- One message surfaced to the user through the Streamlit notice widgets
(st.info / st.warning / st.error / st.success). -/
inductive Notice where
  | info (msg : String)
  | warning (msg : String)
  | error (msg : String)
  | success (msg : String)
deriving DecidableEq, Repr

/-- Role of a chat message, matching the role strings used in
st.session_state.chat_history entries. -/
inductive Role where
  | user
  | assistant
deriving DecidableEq, Repr

/-- An entry of st.session_state.chat_history: a dict with keys role and content. -/
structure ChatMessage where
  role : Role
  content : String
deriving DecidableEq, Repr

/-- The mutable per-session state kept in st.session_state:
transcription_text (initialised to None) and chat_history (initialised to []). -/
structure SessionState where
  transcription_text : Option String
  chat_history : List ChatMessage
deriving DecidableEq, Repr

/-- The freshly reset session state: lines 168-169 set transcription_text to None
and chat_history to []; it is also the state right after initialisation. -/
def idleState : SessionState :=
  { transcription_text := none, chat_history := [] }

/-- Line 23 of src/main.py. -/
def AUDIO_FILENAME_BASE : String := "downloaded_audio"

/-- Outcome of one call to the hosted LLM (ChatGoogleGenerativeAI): either a
response object whose content is the given string, or a raised exception. -/
inductive LLMOutcome where
  | ok (content : String)
  | exn (msg : String)
deriving DecidableEq, Repr

/-- Substitution engine for the Python-style prompt templates used by
ChatPromptTemplate.from_template: a scan of the template characters in which an
opening brace starts a placeholder name, the matching closing brace looks the
name up among the provided values (a missing name raises a KeyError, as
langchain does when invoking a template without one of its input variables),
and every other character is copied verbatim. The first argument of the scan is
the list of provided values; the second is the placeholder name read so far
(none while outside a placeholder). -/
def formatGo (vals : List (String × String)) (mode : Option String) :
    List Char → Except String String
  | [] =>
    match mode with
    | none => .ok ""
    | some _ => .error "ValueError: unterminated placeholder"
  | c :: cs =>
    match mode with
    | none =>
      if c = '{' then
        formatGo vals (some "") cs
      else
        (formatGo vals none cs).map (fun s => String.mk (c :: s.data))
    | some nm =>
      if c = '}' then
        match vals.lookup nm with
        | none => .error ("KeyError: " ++ nm)
        | some v => (formatGo vals none cs).map (fun s => v ++ s)
      else
        formatGo vals (some (nm.push c)) cs

/-- Render a prompt template against the dict of values passed to invoke. -/
def formatTemplate (tmpl : String) (vals : List (String × String)) :
    Except String String :=
  formatGo vals none tmpl.data

/-- Lines 41-54 of src/main.py: the reformatting prompt text, whose single
placeholder is transcricao_bruta. -/
def reformat_prompt_template_text : String :=
  "Você é um assistente especialista em processamento de texto. " ++
  "Sua tarefa é pegar a transcrição de um áudio e reformatá-la em tópicos (bullet points) usando Markdown. " ++
  "O objetivo é organizar a informação de forma clara, concisa e fácil de ler, sem perder NENHUM detalhe ou informação do texto original. " ++
  "Mantenha a linguagem e o tom do texto original. " ++
  "Se houver diálogos ou diferentes falantes, tente representá-los de forma clara dentro da estrutura de tópicos, se possível (ex: usando sub-tópicos ou indicando o falante). " ++
  "Não adicione introduções, saudações, despedidas ou conclusões que não estejam explicitamente no texto original. Apenas reformate o conteúdo fornecido. " ++
  "Certifique-se de que cada ponto da lista seja informativo e represente uma parte do conteúdo original.\n\n" ++
  "Texto Original:\n" ++
  "------------\n" ++
  "{transcricao_bruta}\n" ++
  "------------\n\n" ++
  "Texto Reformatado em Tópicos (Markdown):\n"

/-- Invoking a chain of the shape prompt-template piped into the LLM
(reformat_prompt | llm): the template is rendered against the provided values
(raising on a missing input variable, before any LLM request is made) and on
success the rendered prompt is sent to the LLM. -/
def chainInvoke (llm : String → LLMOutcome) (template : String)
    (vals : List (String × String)) : LLMOutcome :=
  match formatTemplate template vals with
  | .error e => .exn e
  | .ok prompt => llm prompt

/-- Line 13 of src/main.py: LLM_AVAILABLE = bool(GOOGLE_API_KEY); in Python an
absent variable is None and both None and the empty string are falsy. -/
def LLM_AVAILABLE (googleApiKey : Option String) : Bool :=
  match googleApiKey with
  | none => false
  | some k => k != ""

/-- Lines 156-161 of src/main.py: first-run initialisation of
st.session_state, ending with chain = reformat_prompt | llm. When llm is None
(no GOOGLE_API_KEY, see lines 12-39), langchain coerce_to_runnable rejects
None, so the pipe operator raises a TypeError and initialisation fails instead
of storing a chain; otherwise the stored chain is the reformatting template
piped into the LLM, and its template text is returned alongside the fresh
state. -/
def sessionInit (llm_loaded : Bool) : Except String (SessionState × String) :=
  if llm_loaded then
    .ok (idleState, reformat_prompt_template_text)
  else
    .error "TypeError: Expected a Runnable, callable or dict. Instead got an unsupported type: NoneType"

/-- Outcome of the yt-dlp download call inside download_audio_from_youtube
(lines 57-84): the download succeeds and the expected file exists, or the
expected file is absent afterwards, or yt-dlp raises. -/
inductive DlOutcome where
  | ok
  | fileMissing
  | exn (msg : String)
deriving DecidableEq, Repr

/-- Outcome of the whisper_model.transcribe call inside transcribe_audio
(lines 86-91): the model returns a text (possibly empty), or raises. -/
inductive TrOutcome where
  | ok (text : String)
  | exn (msg : String)
deriving DecidableEq, Repr

/-- The outcomes of the external calls a single button-handler run performs,
plus the capability flag of lines 12-39: whether the stale audio file exists
and whether os.remove succeeds (lines 171-175), the download and transcription
outcomes, LLM_AVAILABLE (equivalently, whether llm is not None), the LLM as a
function from rendered prompt to outcome, and whether writing transcription.txt
succeeds (lines 199-204). -/
structure World where
  audioFileExists : Bool
  removeOk : Bool
  dl : DlOutcome
  tr : TrOutcome
  llmAvailable : Bool
  llm : String → LLMOutcome
  fileWriteOk : Bool

/-- Lines 57-84 of src/main.py: download_audio_from_youtube returns the output
filename on success and None on failure, emitting the corresponding notices
(the initial st.info is emitted before the download call, so it also precedes
a raised exception). -/
def download_audio_from_youtube (url : String) (dl : DlOutcome) :
    Option String × List Notice :=
  match dl with
  | .ok =>
    (some AUDIO_FILENAME_BASE,
      [.info ("Baixando áudio de: " ++ url ++ "..."),
       .success "Áudio baixado com sucesso!"])
  | .fileMissing =>
    (none,
      [.info ("Baixando áudio de: " ++ url ++ "..."),
       .error ("Arquivo de áudio esperado (" ++ AUDIO_FILENAME_BASE ++
         ") não encontrado após o download.")])
  | .exn e =>
    (none,
      [.info ("Baixando áudio de: " ++ url ++ "..."),
       .error ("Erro ao baixar o áudio: " ++ e)])

/-- Lines 183-198 of src/main.py: the reformatting step. When the LLM is
loaded, the chain reformat_prompt piped into llm is invoked on the raw
transcript under the placeholder transcricao_bruta; non-empty content replaces
the session text, empty content and exceptions fall back to the raw
transcript. When the LLM is not loaded the raw transcript is kept and the
degraded mode is reported with st.info. Returns the resulting session text and
the notices emitted. -/
def reformatStep (w : World) (transcribed_text : String) : String × List Notice :=
  if w.llmAvailable then
    match chainInvoke w.llm reformat_prompt_template_text
        [("transcricao_bruta", transcribed_text)] with
    | .ok reformatted_content =>
      if reformatted_content = "" then
        (transcribed_text,
          [.info "Reformatando a transcrição com IA (Gemini)... Isso pode levar um momento.",
           .warning "A IA retornou um conteúdo vazio. Usando a transcrição bruta."])
      else
        (reformatted_content,
          [.info "Reformatando a transcrição com IA (Gemini)... Isso pode levar um momento.",
           .success "Transcrição reformatada pela IA com sucesso!"])
    | .exn e =>
      (transcribed_text,
        [.info "Reformatando a transcrição com IA (Gemini)... Isso pode levar um momento.",
         .error ("Erro ao reformatar com IA: " ++ e ++ ". Usando a transcrição bruta.")])
  else
    (transcribed_text,
      [.info "Reformatação por IA desabilitada (API Key não configurada). Usando transcrição bruta."])

/-- Observable outcome of one run of the transcribe-button handler: the
session state afterwards, the content of transcription.txt afterwards, the
value displayed in the transcript text area (None when that widget is not
rendered), the notices emitted, whether the script run was aborted by an
uncaught exception (which Streamlit surfaces to the user), and whether
download_audio_from_youtube was called. -/
structure RunResult where
  state : SessionState
  file : Option String
  displayed : Option String
  notices : List Notice
  aborted : Bool
  downloadAttempted : Bool
deriving DecidableEq, Repr

/-- Lines 166-214 of src/main.py: the body of the transcribe-button click.
An empty URL is falsy in Python, so only the validation warning of line 214 is
emitted and nothing changes. Otherwise the session state is reset (lines
168-169) before the stale audio file removal and the download; a failed
download or a falsy transcript leaves the reset state and reports an error; an
exception from whisper propagates out of the handler (aborting the script
run); on a non-empty transcript the reformat step runs, transcription.txt is
overwritten with the raw transcribed_text (line 201), and the raw
transcribed_text is displayed in the text area (line 207). file0 is the
content of transcription.txt before the run. -/
def transcribeButtonHandler (w : World) (st0 : SessionState)
    (file0 : Option String) (youtube_url : String) : RunResult :=
  if youtube_url = "" then
    { state := st0, file := file0, displayed := none,
      notices := [.warning "Por favor, insira uma URL do YouTube."],
      aborted := false, downloadAttempted := false }
  else
    let removalNotices : List Notice :=
      if w.audioFileExists && !w.removeOk then
        [.warning "Não foi possível remover o arquivo de áudio antigo: <OSError>"]
      else []
    let dlres := download_audio_from_youtube youtube_url w.dl
    let pre := removalNotices ++ dlres.2
    match dlres.1 with
    | none =>
      { state := idleState, file := file0, displayed := none,
        notices := pre ++ [.error "Falha no download do áudio. Verifique a URL e tente novamente."],
        aborted := false, downloadAttempted := true }
    | some _audio_file_path =>
      match w.tr with
      | .exn _e =>
        { state := idleState, file := file0, displayed := none,
          notices := pre ++ [.info "Transcrevendo áudio... Isso pode levar alguns minutos."],
          aborted := true, downloadAttempted := true }
      | .ok transcribed_text =>
        let trNotices : List Notice :=
          [.info "Transcrevendo áudio... Isso pode levar alguns minutos.",
           .success "Áudio transcrito com sucesso!"]
        if transcribed_text = "" then
          { state := idleState, file := file0, displayed := none,
            notices := pre ++ trNotices ++ [.error "Falha na transcrição do áudio."],
            aborted := false, downloadAttempted := true }
        else
          let rf := reformatStep w transcribed_text
          let fileNotices : List Notice :=
            if w.fileWriteOk then [.info "Transcrição salva em transcription.txt"]
            else [.warning "Não foi possível salvar o arquivo de transcrição: <Exception>"]
          let file1 := if w.fileWriteOk then some transcribed_text else file0
          { state := { transcription_text := some rf.1, chat_history := [] },
            file := file1,
            displayed := some transcribed_text,
            notices := pre ++ trNotices ++ rf.2 ++ fileNotices ++
              [.success "Transcrição concluída! Você pode começar a conversar sobre o conteúdo abaixo."],
            aborted := false, downloadAttempted := true }

/-- Observable outcome of one chat turn: the session state afterwards, the
assistant response rendered (None when no response was produced) and whether
the script run was aborted by an uncaught exception. -/
structure ChatResult where
  state : SessionState
  response : Option String
  aborted : Bool
deriving DecidableEq, Repr

/-- Lines 217-239 of src/main.py: one chat turn. The chat interface is only
rendered when st.session_state.transcription_text is truthy (not None and not
empty), and the walrus-if on st.chat_input only fires on a truthy (non-empty)
user input. The user message is appended to chat_history first (line 227);
then the session chain (whose template is chainTemplate) is invoked with the
transcript under contexto and the question under pergunta; an exception from
the invoke propagates (aborting the script run with the user message already
appended), and on success the assistant message is appended. -/
def chatTurn (chainTemplate : String) (llm : String → LLMOutcome)
    (st : SessionState) (user_input : String) : ChatResult :=
  match st.transcription_text with
  | none => { state := st, response := none, aborted := false }
  | some transcript =>
    if transcript = "" then
      { state := st, response := none, aborted := false }
    else if user_input = "" then
      { state := st, response := none, aborted := false }
    else
      let st1 : SessionState :=
        { st with chat_history := st.chat_history ++ [{ role := .user, content := user_input }] }
      match chainInvoke llm chainTemplate
          [("contexto", transcript), ("pergunta", user_input)] with
      | .exn _e => { state := st1, response := none, aborted := true }
      | .ok bot_response =>
        { state := { st1 with chat_history :=
            st1.chat_history ++ [{ role := .assistant, content := bot_response }] },
          response := some bot_response, aborted := false }

/-- A download outcome that is a failure (download_audio_from_youtube returns
None). -/
def downloadFailed : DlOutcome → Bool
  | .ok => false
  | .fileMissing => true
  | .exn _ => true

/-- A transcription outcome that fails the run: a falsy (empty) transcript or
a raised exception. -/
def transcriptionFailed : TrOutcome → Bool
  | .ok t => t == ""
  | .exn _ => true

/-- An error was surfaced to the user: an st.error notice was emitted, or the
script run aborted with an uncaught exception (which Streamlit displays). -/
def surfacesError (r : RunResult) : Bool :=
  (r.notices.any fun n => match n with | .error _ => true | _ => false) || r.aborted


set_option maxRecDepth 40000

/-- Claim C1 (code bug): the chat turn is supposed to build its request from a
question-answering template with the two placeholders contexto and pergunta;
but the session chain stored at line 161 is reformat_prompt piped into llm,
whose only placeholder is transcricao_bruta, so invoking it with contexto and
pergunta (lines 233-236) raises a KeyError before any LLM request is made.
This evaluates the code at the failing input of the spec scenario (context
hello world, question What is discussed?), for every possible LLM. -/
theorem C1_chat_request_fails (llm : String → LLMOutcome) :
    chainInvoke llm reformat_prompt_template_text
      [("contexto", "hello world"), ("pergunta", "What is discussed?")] =
      .exn "KeyError: transcricao_bruta" := rfl

/-- Claim C2 counterexample: a chat turn whose LLM call fails does not leave
the history length unchanged; at a concrete state with empty history, the
failed turn aborts with the user message already appended (length one). -/
theorem C2_counterexample :
    (chatTurn reformat_prompt_template_text (fun _ => LLMOutcome.exn "boom")
      { transcription_text := some "hello world", chat_history := [] }
      "What is discussed?").aborted = true ∧
    (chatTurn reformat_prompt_template_text (fun _ => LLMOutcome.exn "boom")
      { transcription_text := some "hello world", chat_history := [] }
      "What is discussed?").state.chat_history ≠ [] := by
  exact ⟨rfl, by decide⟩

/-- Claim C9: an empty URL input attempts no download, emits exactly the
validation warning of line 214, and leaves the session state, the stored
file and the display unchanged, whatever the oracles and prior state are. -/
theorem C9_empty_url_rejected (w : World) (st0 : SessionState) (file0 : Option String) :
    transcribeButtonHandler w st0 file0 "" =
      { state := st0, file := file0, displayed := none,
        notices := [.warning "Por favor, insira uma URL do YouTube."],
        aborted := false, downloadAttempted := false } := by
  simp [transcribeButtonHandler]


/-- Claim C2 (amended): the user message is appended to ChatHistory before
the LLM call; only the assistant message is contingent on a successful
response, so a failed call leaves exactly the unmatched user message appended
(history grows by one), while a successful call appends the matched
(user, assistant) pair. -/
theorem C2_amended_history_growth (llm : String → LLMOutcome) (st : SessionState)
    (transcript user_input : String)
    (ht : st.transcription_text = some transcript) (htn : transcript ≠ "")
    (hin : user_input ≠ "") :
    (chatTurn reformat_prompt_template_text llm st user_input).state.chat_history =
      (match chainInvoke llm reformat_prompt_template_text
          [("contexto", transcript), ("pergunta", user_input)] with
       | .exn _ => st.chat_history ++ [{ role := .user, content := user_input }]
       | .ok r => st.chat_history ++ [{ role := .user, content := user_input },
                                      { role := .assistant, content := r }]) := by
  cases h : chainInvoke llm reformat_prompt_template_text
      [("contexto", transcript), ("pergunta", user_input)] with
  | ok r => simp [chatTurn, ht, htn, hin, h]
  | exn e => simp [chatTurn, ht, htn, hin, h]

/-- Witness for the amended claim C2 at a concrete state, question and LLM. -/
theorem C2_amended_witness :
    (chatTurn reformat_prompt_template_text (fun _ => LLMOutcome.ok "resp")
      { transcription_text := some "hello world", chat_history := [] }
      "What is discussed?").state.chat_history =
      (match chainInvoke (fun _ => LLMOutcome.ok "resp") reformat_prompt_template_text
          [("contexto", "hello world"), ("pergunta", "What is discussed?")] with
       | .exn _ => ([] : List ChatMessage) ++ [{ role := .user, content := "What is discussed?" }]
       | .ok r => ([] : List ChatMessage) ++ [{ role := .user, content := "What is discussed?" },
                                      { role := .assistant, content := r }]) :=
  C2_amended_history_growth (fun _ => LLMOutcome.ok "resp")
    { transcription_text := some "hello world", chat_history := [] }
    "hello world" "What is discussed?" rfl (by decide) (by decide)


/-- Claim C3 counterexample: in the spec scenario (download ok, transcript
hello world, LLM available returning the bulleted text), the text persisted
to transcription.txt is the raw hello world, not the reformatted text the
claim expects as the final stored text. -/
theorem C3_counterexample :
    (transcribeButtonHandler
      { audioFileExists := false, removeOk := true, dl := .ok,
        tr := .ok "hello world", llmAvailable := true,
        llm := fun _ => .ok "- hello\n- world", fileWriteOk := true }
      idleState (some "stale") "https://youtu.be/abc123").file = some "hello world" ∧
    (transcribeButtonHandler
      { audioFileExists := false, removeOk := true, dl := .ok,
        tr := .ok "hello world", llmAvailable := true,
        llm := fun _ => .ok "- hello\n- world", fileWriteOk := true }
      idleState (some "stale") "https://youtu.be/abc123").file ≠ some "- hello\n- world" := by
  exact ⟨rfl, by decide⟩

/-- Claim C3 (amended): in the scenario, the transcript stored in the session
state (the chat context) equals the reformatted text, while the text
persisted to transcription.txt remains the raw hello world (line 201 writes
transcribed_text, not the reformatted content). -/
theorem C3_amended_session_vs_file (w : World) (st0 : SessionState)
    (file0 : Option String) (url : String)
    (hurl : url ≠ "") (hdl : w.dl = .ok) (htr : w.tr = .ok "hello world")
    (hav : w.llmAvailable = true)
    (hrf : chainInvoke w.llm reformat_prompt_template_text
        [("transcricao_bruta", "hello world")] = .ok "- hello\n- world")
    (hfw : w.fileWriteOk = true) :
    (transcribeButtonHandler w st0 file0 url).state.transcription_text =
      some "- hello\n- world" ∧
    (transcribeButtonHandler w st0 file0 url).file = some "hello world" := by
  simp [transcribeButtonHandler, reformatStep, download_audio_from_youtube,
    hurl, hdl, htr, hav, hrf, hfw]

/-- Witness for the amended claim C3 at the concrete scenario oracles. -/
theorem C3_amended_witness :
    (transcribeButtonHandler
      { audioFileExists := false, removeOk := true, dl := .ok,
        tr := .ok "hello world", llmAvailable := true,
        llm := fun _ => .ok "- hello\n- world", fileWriteOk := true }
      idleState (some "stale") "https://youtu.be/abc123").state.transcription_text =
      some "- hello\n- world" ∧
    (transcribeButtonHandler
      { audioFileExists := false, removeOk := true, dl := .ok,
        tr := .ok "hello world", llmAvailable := true,
        llm := fun _ => .ok "- hello\n- world", fileWriteOk := true }
      idleState (some "stale") "https://youtu.be/abc123").file = some "hello world" :=
  C3_amended_session_vs_file
    { audioFileExists := false, removeOk := true, dl := .ok,
      tr := .ok "hello world", llmAvailable := true,
      llm := fun _ => .ok "- hello\n- world", fileWriteOk := true }
    idleState (some "stale") "https://youtu.be/abc123"
    (by decide) rfl rfl rfl (by rfl) rfl

/-- Claim C4: after every successful download plus transcription run in which
the file write succeeds, transcription.txt contains exactly the raw
transcript, whatever the prior file content was (overwrite, not append) and
whatever the LLM does. -/
theorem C4_file_contains_raw_overwritten (w : World) (st0 : SessionState)
    (file0 : Option String) (url t : String)
    (hurl : url ≠ "") (hdl : w.dl = .ok) (htr : w.tr = .ok t)
    (ht : t ≠ "") (hfw : w.fileWriteOk = true) :
    (transcribeButtonHandler w st0 file0 url).file = some t := by
  simp [transcribeButtonHandler, download_audio_from_youtube,
    hurl, hdl, htr, ht, hfw]

/-- Witness for claim C4 at concrete oracles with a stale prior file. -/
theorem C4_witness :
    (transcribeButtonHandler
      { audioFileExists := true, removeOk := true, dl := .ok,
        tr := .ok "raw words", llmAvailable := false,
        llm := fun _ => .exn "off", fileWriteOk := true }
      idleState (some "previous contents") "https://youtu.be/xyz").file =
      some "raw words" :=
  C4_file_contains_raw_overwritten
    { audioFileExists := true, removeOk := true, dl := .ok,
      tr := .ok "raw words", llmAvailable := false,
      llm := fun _ => .exn "off", fileWriteOk := true }
    idleState (some "previous contents") "https://youtu.be/xyz" "raw words"
    (by decide) rfl rfl (by decide) rfl


/-- Claim C5: when the reformatting call raises or returns empty content, the
run is not aborted, the failure is reported (an st.error for the exception or
an st.warning for empty content), and the session transcript, the persisted
file and the displayed text all equal the raw transcript unchanged. -/
theorem C5_reformat_failure_nonfatal (w : World) (st0 : SessionState)
    (file0 : Option String) (url t eMsg : String)
    (hurl : url ≠ "") (hdl : w.dl = .ok) (htr : w.tr = .ok t) (ht : t ≠ "")
    (hav : w.llmAvailable = true) (hfw : w.fileWriteOk = true)
    (hrf : chainInvoke w.llm reformat_prompt_template_text
        [("transcricao_bruta", t)] = .exn eMsg ∨
      chainInvoke w.llm reformat_prompt_template_text
        [("transcricao_bruta", t)] = .ok "") :
    (transcribeButtonHandler w st0 file0 url).state.transcription_text = some t ∧
    (transcribeButtonHandler w st0 file0 url).file = some t ∧
    (transcribeButtonHandler w st0 file0 url).displayed = some t ∧
    (transcribeButtonHandler w st0 file0 url).aborted = false ∧
    (Notice.error ("Erro ao reformatar com IA: " ++ eMsg ++ ". Usando a transcrição bruta.")
        ∈ (transcribeButtonHandler w st0 file0 url).notices ∨
      Notice.warning "A IA retornou um conteúdo vazio. Usando a transcrição bruta."
        ∈ (transcribeButtonHandler w st0 file0 url).notices) := by
  rcases hrf with hrf | hrf <;>
    simp [transcribeButtonHandler, reformatStep, download_audio_from_youtube,
      hurl, hdl, htr, ht, hav, hfw, hrf]

/-- Witness for claim C5 with a concrete LLM that raises a timeout. -/
theorem C5_witness :
    (transcribeButtonHandler
      { audioFileExists := false, removeOk := true, dl := .ok,
        tr := .ok "hello world", llmAvailable := true,
        llm := fun _ => .exn "timeout", fileWriteOk := true }
      idleState none "https://youtu.be/abc123").state.transcription_text = some "hello world" ∧
    (transcribeButtonHandler
      { audioFileExists := false, removeOk := true, dl := .ok,
        tr := .ok "hello world", llmAvailable := true,
        llm := fun _ => .exn "timeout", fileWriteOk := true }
      idleState none "https://youtu.be/abc123").file = some "hello world" ∧
    (transcribeButtonHandler
      { audioFileExists := false, removeOk := true, dl := .ok,
        tr := .ok "hello world", llmAvailable := true,
        llm := fun _ => .exn "timeout", fileWriteOk := true }
      idleState none "https://youtu.be/abc123").displayed = some "hello world" ∧
    (transcribeButtonHandler
      { audioFileExists := false, removeOk := true, dl := .ok,
        tr := .ok "hello world", llmAvailable := true,
        llm := fun _ => .exn "timeout", fileWriteOk := true }
      idleState none "https://youtu.be/abc123").aborted = false ∧
    (Notice.error ("Erro ao reformatar com IA: " ++ "timeout" ++ ". Usando a transcrição bruta.")
        ∈ (transcribeButtonHandler
      { audioFileExists := false, removeOk := true, dl := .ok,
        tr := .ok "hello world", llmAvailable := true,
        llm := fun _ => .exn "timeout", fileWriteOk := true }
      idleState none "https://youtu.be/abc123").notices ∨
      Notice.warning "A IA retornou um conteúdo vazio. Usando a transcrição bruta."
        ∈ (transcribeButtonHandler
      { audioFileExists := false, removeOk := true, dl := .ok,
        tr := .ok "hello world", llmAvailable := true,
        llm := fun _ => .exn "timeout", fileWriteOk := true }
      idleState none "https://youtu.be/abc123").notices) :=
  C5_reformat_failure_nonfatal
    { audioFileExists := false, removeOk := true, dl := .ok,
      tr := .ok "hello world", llmAvailable := true,
      llm := fun _ => .exn "timeout", fileWriteOk := true }
    idleState none "https://youtu.be/abc123" "hello world" "timeout"
    (by decide) rfl rfl (by decide) rfl rfl (Or.inl (by rfl))


/-- Claim C6: a transcribe-button run with a non-empty URL first resets the
session (lines 168-169): its outcome is independent of the prior session
state, the download is attempted, and even when the download fails the
session ends in the cleared idle state, showing the prior transcript and chat
history were cleared before the download. -/
theorem C6_reset_before_download (w : World) (st0 st0alt : SessionState)
    (file0 : Option String) (url : String) (hurl : url ≠ "") :
    transcribeButtonHandler w st0 file0 url = transcribeButtonHandler w st0alt file0 url ∧
    (transcribeButtonHandler w st0 file0 url).downloadAttempted = true ∧
    (w.dl ≠ .ok → (transcribeButtonHandler w st0 file0 url).state = idleState) := by
  refine ⟨?_, ?_, ?_⟩
  · simp only [transcribeButtonHandler, if_neg hurl]
  · cases hd : w.dl <;> cases htr : w.tr <;>
      simp [transcribeButtonHandler, download_audio_from_youtube, hurl, hd, htr]
    all_goals (split <;> simp)
  · intro hne
    cases hd : w.dl
    · exact absurd hd hne
    · simp [transcribeButtonHandler, download_audio_from_youtube, hurl, hd]
    · simp [transcribeButtonHandler, download_audio_from_youtube, hurl, hd]

/-- Witness for claim C6 starting from a non-trivial prior session. -/
theorem C6_witness :
    transcribeButtonHandler
      { audioFileExists := false, removeOk := true, dl := .fileMissing,
        tr := .exn "unreached", llmAvailable := true,
        llm := fun _ => .exn "unreached", fileWriteOk := true }
      { transcription_text := some "old transcript",
        chat_history := [{ role := .user, content := "old question" }] }
      none "https://youtu.be/next" =
    transcribeButtonHandler
      { audioFileExists := false, removeOk := true, dl := .fileMissing,
        tr := .exn "unreached", llmAvailable := true,
        llm := fun _ => .exn "unreached", fileWriteOk := true }
      idleState none "https://youtu.be/next" ∧
    (transcribeButtonHandler
      { audioFileExists := false, removeOk := true, dl := .fileMissing,
        tr := .exn "unreached", llmAvailable := true,
        llm := fun _ => .exn "unreached", fileWriteOk := true }
      { transcription_text := some "old transcript",
        chat_history := [{ role := .user, content := "old question" }] }
      none "https://youtu.be/next").downloadAttempted = true ∧
    (DlOutcome.fileMissing ≠ DlOutcome.ok →
      (transcribeButtonHandler
        { audioFileExists := false, removeOk := true, dl := .fileMissing,
          tr := .exn "unreached", llmAvailable := true,
          llm := fun _ => .exn "unreached", fileWriteOk := true }
        { transcription_text := some "old transcript",
          chat_history := [{ role := .user, content := "old question" }] }
        none "https://youtu.be/next").state = idleState) :=
  C6_reset_before_download
    { audioFileExists := false, removeOk := true, dl := .fileMissing,
      tr := .exn "unreached", llmAvailable := true,
      llm := fun _ => .exn "unreached", fileWriteOk := true }
    { transcription_text := some "old transcript",
      chat_history := [{ role := .user, content := "old question" }] }
    idleState none "https://youtu.be/next" (by decide)


/-- Claim C7: every failure while downloading (yt-dlp raises or the expected
file is missing) or transcribing (whisper raises or the transcript is falsy)
leaves the session in the cleared idle state with no transcript, surfaces an
error to the user (an st.error notice or the uncaught exception Streamlit
displays), and makes any subsequent chat turn a no-op. -/
theorem C7_fatal_failures_return_idle (w : World) (st0 : SessionState)
    (file0 : Option String) (url question tmpl2 : String)
    (llm2 : String → LLMOutcome) (hurl : url ≠ "")
    (hfail : downloadFailed w.dl = true ∨
      (w.dl = .ok ∧ transcriptionFailed w.tr = true)) :
    (transcribeButtonHandler w st0 file0 url).state = idleState ∧
    surfacesError (transcribeButtonHandler w st0 file0 url) = true ∧
    chatTurn tmpl2 llm2 (transcribeButtonHandler w st0 file0 url).state question =
      { state := idleState, response := none, aborted := false } := by
  have hstate : (transcribeButtonHandler w st0 file0 url).state = idleState := by
    rcases hfail with hdl | ⟨hdl, htr⟩
    · cases hd : w.dl with
      | ok => rw [hd] at hdl; simp [downloadFailed] at hdl
      | fileMissing =>
        simp [transcribeButtonHandler, download_audio_from_youtube, hurl, hd]
      | exn e =>
        simp [transcribeButtonHandler, download_audio_from_youtube, hurl, hd]
    · cases ht : w.tr with
      | exn e =>
        simp [transcribeButtonHandler, download_audio_from_youtube, hurl, hdl, ht]
      | ok t =>
        have htt : t = "" := by simpa [ht, transcriptionFailed] using htr
        simp [transcribeButtonHandler, download_audio_from_youtube, hurl, hdl, ht, htt]
  refine ⟨hstate, ?_, ?_⟩
  · rcases hfail with hdl | ⟨hdl, htr⟩
    · cases hd : w.dl with
      | ok => rw [hd] at hdl; simp [downloadFailed] at hdl
      | fileMissing =>
        simp [transcribeButtonHandler, download_audio_from_youtube, surfacesError,
          hurl, hd]
      | exn e =>
        simp [transcribeButtonHandler, download_audio_from_youtube, surfacesError,
          hurl, hd]
    · cases ht : w.tr with
      | exn e =>
        simp [transcribeButtonHandler, download_audio_from_youtube, surfacesError,
          hurl, hdl, ht]
      | ok t =>
        have htt : t = "" := by simpa [ht, transcriptionFailed] using htr
        simp [transcribeButtonHandler, download_audio_from_youtube, surfacesError,
          hurl, hdl, ht, htt]
  · rw [hstate]
    rfl

/-- Witness for claim C7 with a concrete failing download. -/
theorem C7_witness :
    (transcribeButtonHandler
      { audioFileExists := false, removeOk := true, dl := .exn "video unavailable",
        tr := .ok "unused", llmAvailable := true,
        llm := fun _ => .ok "unused", fileWriteOk := true }
      { transcription_text := some "prior", chat_history := [] }
      (some "prior file") "https://youtu.be/broken").state = idleState ∧
    surfacesError (transcribeButtonHandler
      { audioFileExists := false, removeOk := true, dl := .exn "video unavailable",
        tr := .ok "unused", llmAvailable := true,
        llm := fun _ => .ok "unused", fileWriteOk := true }
      { transcription_text := some "prior", chat_history := [] }
      (some "prior file") "https://youtu.be/broken") = true ∧
    chatTurn reformat_prompt_template_text (fun _ => LLMOutcome.ok "unused")
      (transcribeButtonHandler
        { audioFileExists := false, removeOk := true, dl := .exn "video unavailable",
          tr := .ok "unused", llmAvailable := true,
          llm := fun _ => .ok "unused", fileWriteOk := true }
        { transcription_text := some "prior", chat_history := [] }
        (some "prior file") "https://youtu.be/broken").state "any question" =
      { state := idleState, response := none, aborted := false } :=
  C7_fatal_failures_return_idle
    { audioFileExists := false, removeOk := true, dl := .exn "video unavailable",
      tr := .ok "unused", llmAvailable := true,
      llm := fun _ => .ok "unused", fileWriteOk := true }
    { transcription_text := some "prior", chat_history := [] }
    (some "prior file") "https://youtu.be/broken" "any question"
    reformat_prompt_template_text (fun _ => LLMOutcome.ok "unused")
    (by decide) (Or.inl (by decide))

/-- Claim C8 (code bug): with no GOOGLE_API_KEY, LLM_AVAILABLE is false and
llm is None, and session initialisation (line 161) raises a TypeError while
composing reformat_prompt with None, halting the app before the URL input is
rendered. The degraded identity-reformatting run the claim describes is
therefore unreachable, contradicting the comment at line 21 that the app is
not stopped. -/
theorem C8_no_credential_crashes_at_startup :
    LLM_AVAILABLE none = false ∧
    sessionInit (LLM_AVAILABLE none) =
      .error "TypeError: Expected a Runnable, callable or dict. Instead got an unsupported type: NoneType" :=
  ⟨rfl, rfl⟩

/-- Claim C10: when the reformatting call succeeds with non-empty content
distinct from the raw transcript, the session transcript (the chat context)
becomes the reformatted text while transcription.txt and the displayed text
area keep the raw transcript, so the surfaces diverge. -/
theorem C10_three_surfaces_diverge (w : World) (st0 : SessionState)
    (file0 : Option String) (url t r : String)
    (hurl : url ≠ "") (hdl : w.dl = .ok) (htr : w.tr = .ok t) (ht : t ≠ "")
    (hav : w.llmAvailable = true)
    (hrf : chainInvoke w.llm reformat_prompt_template_text
        [("transcricao_bruta", t)] = .ok r)
    (hr : r ≠ "") (hrt : r ≠ t) (hfw : w.fileWriteOk = true) :
    (transcribeButtonHandler w st0 file0 url).state.transcription_text = some r ∧
    (transcribeButtonHandler w st0 file0 url).file = some t ∧
    (transcribeButtonHandler w st0 file0 url).displayed = some t ∧
    (transcribeButtonHandler w st0 file0 url).state.transcription_text ≠
      (transcribeButtonHandler w st0 file0 url).file := by
  have h1 : (transcribeButtonHandler w st0 file0 url).state.transcription_text = some r := by
    simp [transcribeButtonHandler, reformatStep, download_audio_from_youtube,
      hurl, hdl, htr, ht, hav, hrf, hr, hfw]
  have h2 : (transcribeButtonHandler w st0 file0 url).file = some t := by
    simp [transcribeButtonHandler, download_audio_from_youtube, hurl, hdl, htr, ht, hfw]
  refine ⟨h1, h2, ?_, ?_⟩
  · simp [transcribeButtonHandler, download_audio_from_youtube, hurl, hdl, htr, ht, hfw]
  · rw [h1, h2]
    simp [hrt]

/-- Witness for claim C10 at the concrete scenario oracles. -/
theorem C10_witness :
    (transcribeButtonHandler
      { audioFileExists := false, removeOk := true, dl := .ok,
        tr := .ok "hello world", llmAvailable := true,
        llm := fun _ => .ok "- hello\n- world", fileWriteOk := true }
      idleState none "https://youtu.be/abc").state.transcription_text = some "- hello\n- world" ∧
    (transcribeButtonHandler
      { audioFileExists := false, removeOk := true, dl := .ok,
        tr := .ok "hello world", llmAvailable := true,
        llm := fun _ => .ok "- hello\n- world", fileWriteOk := true }
      idleState none "https://youtu.be/abc").file = some "hello world" ∧
    (transcribeButtonHandler
      { audioFileExists := false, removeOk := true, dl := .ok,
        tr := .ok "hello world", llmAvailable := true,
        llm := fun _ => .ok "- hello\n- world", fileWriteOk := true }
      idleState none "https://youtu.be/abc").displayed = some "hello world" ∧
    (transcribeButtonHandler
      { audioFileExists := false, removeOk := true, dl := .ok,
        tr := .ok "hello world", llmAvailable := true,
        llm := fun _ => .ok "- hello\n- world", fileWriteOk := true }
      idleState none "https://youtu.be/abc").state.transcription_text ≠
      (transcribeButtonHandler
      { audioFileExists := false, removeOk := true, dl := .ok,
        tr := .ok "hello world", llmAvailable := true,
        llm := fun _ => .ok "- hello\n- world", fileWriteOk := true }
      idleState none "https://youtu.be/abc").file :=
  C10_three_surfaces_diverge
    { audioFileExists := false, removeOk := true, dl := .ok,
      tr := .ok "hello world", llmAvailable := true,
      llm := fun _ => .ok "- hello\n- world", fileWriteOk := true }
    idleState none "https://youtu.be/abc" "hello world" "- hello\n- world"
    (by decide) rfl rfl (by decide) rfl (by rfl) (by decide) (by decide) rfl

end OneScriber
